import Mathlib

/-!
# VisionAI front end: the orchestration core of `frontend/src/App.js`

A shallow embedding of the `App` component.

* The seven `useState` cells become the fields of `AppState`; every state
  setter is a pure update of one field, and a handler is the composition of
  the setter calls it makes, in call order.
* `analyze` is asynchronous.  It is split at its only suspension point (the
  `await axios.post`): `analyzeBegin` and `attempt` are the synchronous part,
  `settle` is what runs once the promise has settled (`catch` and `finally`
  included).  `analyze` composes them for an uninterrupted call and records
  every intermediate state; `step` interleaves them with the other handlers.
* Everything the browser or the service supplies is an argument: the webcam
  screenshot, the picked file and its object URL, the outcome of the POST.
* JSON numbers are exact (`Int` for counts, `ℚ` for percentages); strings keep
  their JavaScript truthiness (the empty string is falsy).
-/

namespace VisionApp

/-! ## Values exchanged with the browser and the service -/

/-- Base path of the inference service (`const API_URL`). -/
def API_URL : String := "http://localhost:5000/api"

/-- A browser `File` object, as delivered by the hidden file input. -/
structure File where
  name : String
  deriving DecidableEq, Repr

/-- One element of `emotions` in a response.  `all_probabilities` is the
optional label-to-percentage object, kept as its `Object.entries` list. -/
structure EmotionEntry where
  emotion : String
  confidence : ℚ
  all_probabilities : Option (List (String × ℚ))
  quote : Option String
  deriving DecidableEq

/-- One element of `fingers.hands`. -/
structure Hand where
  hand : String
  finger_status : Option (List (String × Bool))
  deriving DecidableEq

/-- The `fingers` sub-object of a response. -/
structure FingerData where
  hands_detected : Int
  total_fingers : Int
  hands : List Hand
  message : Option String
  deriving DecidableEq

/-- The `objects` sub-object of a response. -/
structure ObjectData where
  count : Int
  method : String
  message : Option String
  deriving DecidableEq

/-- The nested `emotion` sub-object of a response. -/
structure EmotionData where
  faces_detected : Option Int
  emotions : List EmotionEntry
  deriving DecidableEq

/-- The body of a successful response (`response.data`).  A field that the
code reads through `?.`, `??`, `!== undefined` or `&&` is optional; `none`
stands for an absent (`undefined`) field. -/
structure Response where
  emotion : Option EmotionData
  faces_detected : Option Int
  emotions : List EmotionEntry
  fingers : Option FingerData
  objects : Option ObjectData
  annotated_image : Option String
  deriving DecidableEq

/-- The `data` of a failed response, read as `err.response?.data?.error`. -/
structure ErrorBody where
  error : Option String
  deriving DecidableEq

/-- The `response` of a rejected request, when the service answered at all. -/
structure ErrorResponse where
  data : Option ErrorBody
  deriving DecidableEq

/-- The value caught by the `catch` clause of `analyze`. -/
structure Failure where
  response : Option ErrorResponse
  message : Option String
  deriving DecidableEq

/-- The value built by `new Error(msg)`: a message and no `response`. -/
def Failure.ofMessage (msg : String) : Failure :=
  { response := none, message := some msg }

/-- The payload handed to `axios.post`. -/
inductive Body where
  | json (image : String) (annotate : Bool)
  | multipart (fields : List (String × File))
  deriving DecidableEq

/-- One call of `axios.post(url, body, { headers })`. -/
structure Request where
  method : String
  url : String
  body : Body
  headers : List (String × String)
  deriving DecidableEq

/-! ## JavaScript operators used by the component -/

/-- Truthiness of a value that is a string, `null` or `undefined`. -/
def jsTruthy : Option String → Bool
  | none => false
  | some s => s != ""

/-- The operator `a || b` on such values. -/
def jsOr (a b : Option String) : Option String :=
  if jsTruthy a then a else b

/-- The guard `x && <markup showing x>` on such values: what is shown. -/
def jsAndShow (x : Option String) : Option String :=
  if jsTruthy x then x else none

/-- The comparison `n > 0` where `n` may be `undefined`. -/
def jsGtZero : Option Int → Bool
  | none => false
  | some n => decide (0 < n)

/-! ## Component state -/

/-- The seven state cells of `App`, in declaration order. -/
structure AppState where
  mode : String
  analysisType : String
  isProcessing : Bool
  results : Option Response
  error : Option String
  selectedFile : Option File
  previewUrl : Option String
  deriving DecidableEq

/-- The `useState` initial values. -/
def initialState : AppState :=
  { mode := "camera", analysisType := "all", isProcessing := false,
    results := none, error := none, selectedFile := none, previewUrl := none }

def setMode (m : String) (s : AppState) : AppState := { s with mode := m }

def setAnalysisType (t : String) (s : AppState) : AppState :=
  { s with analysisType := t }

def setIsProcessing (b : Bool) (s : AppState) : AppState :=
  { s with isProcessing := b }

def setResults (r : Option Response) (s : AppState) : AppState :=
  { s with results := r }

def setError (e : Option String) (s : AppState) : AppState :=
  { s with error := e }

def setSelectedFile (f : Option File) (s : AppState) : AppState :=
  { s with selectedFile := f }

def setPreviewUrl (u : Option String) (s : AppState) : AppState :=
  { s with previewUrl := u }

/-! ## Handlers -/

/-- The handler `clear`. -/
def clear (s : AppState) : AppState :=
  setPreviewUrl none (setSelectedFile none (setError none (setResults none s)))

/-- The `onClick` of a mode button: `setMode(m.id); clear();`. -/
def modeBtnClick (m : String) (s : AppState) : AppState :=
  clear (setMode m s)

/-- The handler `handleFile`.  `f` is `e.target.files[0]` and `url` the value
`URL.createObjectURL(f)` returns. -/
def handleFile (f : Option File) (url : String) (s : AppState) : AppState :=
  match f with
  | none => s
  | some file =>
    setError none (setResults none
      (setPreviewUrl (some url) (setSelectedFile (some file) s)))

/-- The endpoint computed at the top of the `try` block of `analyze`. -/
def selectEndpoint (s : AppState) : String :=
  if s.analysisType = "emotion" then API_URL ++ "/detect-emotion"
  else if s.analysisType = "fingers" then API_URL ++ "/count-fingers"
  else if s.analysisType = "objects" then API_URL ++ "/count-objects"
  else API_URL ++ "/analyze-all"

/-- The argument of `setError` in the `catch` clause:
`err.response?.data?.error || err.message || 'Analysis failed'`. -/
def errorMessage (err : Failure) : Option String :=
  jsOr (jsOr ((err.response.bind (·.data)).bind (·.error)) err.message)
    (some "Analysis failed")

/-- The three setter calls that open `analyze`, as the states they produce. -/
def beginTrace (s : AppState) : List AppState :=
  let t1 := setIsProcessing true s
  let t2 := setError none t1
  let t3 := setResults none t2
  [t1, t2, t3]

/-- The state in which `analyze` reaches its request. -/
def analyzeBegin (s : AppState) : AppState :=
  setResults none (setError none (setIsProcessing true s))

/-- The rest of the `try` block up to the call of `axios.post`: either the
request to send or the error thrown before any request exists.  `shot` is
`webcamRef.current?.getScreenshot()`. -/
def attempt (s : AppState) (shot : Option String) : Except Failure Request :=
  let endpoint := selectEndpoint s
  if s.mode = "camera" then
    match shot with
    | none => .error (Failure.ofMessage "Could not capture from camera")
    | some img =>
      if img = "" then .error (Failure.ofMessage "Could not capture from camera")
      else .ok { method := "POST", url := endpoint,
                 body := .json img true, headers := [] }
  else
    match s.selectedFile with
    | none => .error (Failure.ofMessage "No file selected")
    | some file =>
      .ok { method := "POST", url := endpoint ++ "?annotate=true",
            body := .multipart [("file", file)],
            headers := [("Content-Type", "multipart/form-data")] }

/-- The state after `setResults(response.data)` or after the `catch` clause,
applied to the state `cur` current at that moment. -/
def settled (cur : AppState) (outcome : Except Failure Response) : AppState :=
  match outcome with
  | .ok data => setResults (some data) cur
  | .error err => setError (errorMessage err) cur

/-- The `finally` clause. -/
def finish (cur : AppState) : AppState := setIsProcessing false cur

/-- The setter calls made once the attempt has an outcome. -/
def settle (cur : AppState) (outcome : Except Failure Response) : List AppState :=
  [settled cur outcome, finish (settled cur outcome)]

/-- What one call of `analyze` did: the state after each setter call, in call
order, and the requests handed to `axios.post`. -/
structure Run where
  trace : List AppState
  sent : List Request
  deriving DecidableEq

/-- The state a run leaves behind when it started in `s`. -/
def Run.final (r : Run) (s : AppState) : AppState := r.trace.getLastD s

/-- One uninterrupted call of `analyze` in state `s`; `server` is the outcome
of the POST for the request it is given. -/
def analyze (s : AppState) (shot : Option String)
    (server : Request → Except Failure Response) : Run :=
  match attempt s shot with
  | .error err =>
    { trace := beginTrace s ++ settle (analyzeBegin s) (.error err), sent := [] }
  | .ok req =>
    { trace := beginTrace s ++ settle (analyzeBegin s) (server req), sent := [req] }

/-- The `disabled` attribute of the analyze button. -/
def analyzeBtnDisabled (s : AppState) : Bool :=
  s.isProcessing || (s.mode != "camera" && !s.selectedFile.isSome)

/-- A click on the analyze button (`onClick={analyze}`): a disabled button
delivers no click, so the handler runs only when `disabled` is false. -/
def analyzeBtnClick (s : AppState) (shot : Option String)
    (server : Request → Except Failure Response) : Run :=
  if analyzeBtnDisabled s then { trace := [], sent := [] }
  else analyze s shot server

/-! ## Result normalisation and the results panel

Markup on which no property below depends (class names, icons, glyphs, fixed
captions) is left out of the view records. -/

/-- What `getEmotion` hands to the emotion card: the nested `emotion` object
or the response envelope itself. -/
inductive EmotionSource where
  | nested (e : EmotionData)
  | envelope (r : Response)
  deriving DecidableEq

/-- The read `ed.faces_detected`. -/
def EmotionSource.faces_detected : EmotionSource → Option Int
  | .nested e => e.faces_detected
  | .envelope r => r.faces_detected

/-- The read `ed.emotions`. -/
def EmotionSource.emotions : EmotionSource → List EmotionEntry
  | .nested e => e.emotions
  | .envelope r => r.emotions

/-- The helper `getEmotion`:
`results?.emotion ?? (results?.faces_detected !== undefined ? results : null)`. -/
def getEmotion (results : Option Response) : Option EmotionSource :=
  match results.bind (·.emotion) with
  | some e => some (.nested e)
  | none =>
    if (results.bind (·.faces_detected)).isSome then results.map .envelope
    else none

/-- The helper `getFingers`: `results?.fingers ?? null`. -/
def getFingers (results : Option Response) : Option FingerData :=
  results.bind (·.fingers)

/-- The helper `getObjects`: `results?.objects ?? null`. -/
def getObjects (results : Option Response) : Option ObjectData :=
  results.bind (·.objects)

def showEmotion (s : AppState) : Bool :=
  s.analysisType = "all" || s.analysisType = "emotion"

def showFingers (s : AppState) : Bool :=
  s.analysisType = "all" || s.analysisType = "fingers"

def showObjects (s : AppState) : Bool :=
  s.analysisType = "all" || s.analysisType = "objects"

/-- Insertion of `x` in front of the first element it does not follow. -/
def sortInsert {α : Type} (cmp : α → α → ℚ) (x : α) : List α → List α
  | [] => [x]
  | y :: ys => if cmp x y ≤ 0 then x :: y :: ys else y :: sortInsert cmp x ys

/-- The method `Array.prototype.sort(cmp)`, as a stable insertion sort: `a`
stays in front of `b` when `cmp(a, b) ≤ 0`.  The language standard requires a
stable sort, and for a consistent comparator the stably sorted arrangement is
unique, so every conforming engine returns this list. -/
def arraySort {α : Type} (cmp : α → α → ℚ) : List α → List α
  | [] => []
  | x :: xs => sortInsert cmp x (arraySort cmp xs)

/-- The comparator `(a, b) => b[1] - a[1]`. -/
def probCompare (a b : String × ℚ) : ℚ := b.2 - a.2

/-- One `prob-row`: its label, its percentage (bar width and printed value)
and whether the bar carries the class `top`. -/
structure ProbRow where
  label : String
  prob : ℚ
  top : Bool
  deriving DecidableEq

/-- The `prob-bars` block of an emotion entry: absent without
`all_probabilities`, else one row per entry of the sorted `Object.entries`. -/
def probBars (e : EmotionEntry) : Option (List ProbRow) :=
  e.all_probabilities.map fun m =>
    (arraySort probCompare m).map fun p =>
      { label := p.1, prob := p.2, top := decide (p.1 = e.emotion) }

/-- One `emotion-result` block. -/
structure EmotionRow where
  emotion : String
  confidence : ℚ
  bars : Option (List ProbRow)
  quote : Option String
  deriving DecidableEq

def emotionRow (e : EmotionEntry) : EmotionRow :=
  { emotion := e.emotion, confidence := e.confidence, bars := probBars e,
    quote := jsAndShow e.quote }

/-- Body of the emotion card. -/
inductive EmotionCard where
  | detected (rows : List EmotionRow)
  | noDetection (msg : String)
  deriving DecidableEq

/-- One `hand-row`: the label and the five finger dots (`up` or not). -/
structure HandRow where
  hand : String
  dots : List (String × Bool)
  deriving DecidableEq

def fingerNames : List String := ["Thumb", "Index", "Middle", "Ring", "Pinky"]

def handRow (h : Hand) : HandRow :=
  { hand := h.hand,
    dots := fingerNames.map fun name =>
      (name, ((h.finger_status.bind (·.lookup name)).getD false)) }

/-- Body of the finger card. -/
inductive FingerCard where
  | detected (total : Int) (hands : List HandRow) (message : Option String)
  | noDetection (msg : String)
  deriving DecidableEq

/-- Body of the object card. -/
inductive ObjectCard where
  | counted (count : Int) (method : String) (message : Option String)
  | noDetection (msg : String)
  deriving DecidableEq

def emotionCard (results : Option Response) : EmotionCard :=
  match getEmotion results with
  | none => .noDetection "No faces detected in frame"
  | some ed =>
    if jsGtZero ed.faces_detected then .detected (ed.emotions.map emotionRow)
    else .noDetection "No faces detected in frame"

def fingerCard (results : Option Response) : FingerCard :=
  match getFingers results with
  | none => .noDetection "No hands detected in frame"
  | some fd =>
    if jsGtZero (some fd.hands_detected) then
      .detected fd.total_fingers (fd.hands.map handRow) (jsAndShow fd.message)
    else .noDetection "No hands detected in frame"

def objectCard (results : Option Response) : ObjectCard :=
  match getObjects results with
  | none => .noDetection "No objects detected"
  | some od => .counted od.count od.method (jsAndShow od.message)

/-- The `results-container`: each field is `none` when that piece of markup is
not rendered. -/
structure ResultsView where
  annotated : Option String
  emotion : Option EmotionCard
  fingers : Option FingerCard
  objects : Option ObjectCard
  deriving DecidableEq

/-- The block `results && (...)` of the render function; `none` when the
container is not rendered. -/
def resultsView (s : AppState) : Option ResultsView :=
  match s.results with
  | none => none
  | some r =>
    some { annotated := jsAndShow r.annotated_image,
           emotion := if showEmotion s then some (emotionCard s.results) else none,
           fingers := if showFingers s then some (fingerCard s.results) else none,
           objects := if showObjects s then some (objectCard s.results) else none }

/-- The finger card as rendered: `none` when it is not on the page. -/
def fingerSection (s : AppState) : Option FingerCard :=
  (resultsView s).bind (·.fingers)

/-- The object card as rendered: `none` when it is not on the page. -/
def objectSection (s : AppState) : Option ObjectCard :=
  (resultsView s).bind (·.objects)

/-! ## The component as a transition system -/

/-- The `id`s of the three mode buttons. -/
def modeIds : List String := ["camera", "image", "video"]

/-- The `value`s of the four `<option>`s. -/
def analysisOptions : List String := ["all", "emotion", "fingers", "objects"]

/-- The condition `(results || error)` under which the clear button exists. -/
def clearBtnShown (s : AppState) : Bool :=
  s.results.isSome || jsTruthy s.error

/-- The component together with the request it is waiting for, if any. -/
structure Sys where
  ui : AppState
  pending : Option Request
  deriving DecidableEq

/-- What can happen to the mounted component. -/
inductive Action where
  | modeSwitch (m : String)
  | typeChange (t : String)
  | filePick (f : Option File) (url : String)
  | clearClick
  | analyzeClick (shot : Option String)
  | completion (outcome : Except Failure Response)

/-- One action.  An action whose control is not on the page, or is disabled,
leaves everything as it is; a completion needs a request in flight. -/
def step (σ : Sys) : Action → Sys
  | .modeSwitch m =>
    if m ∈ modeIds then { σ with ui := modeBtnClick m σ.ui } else σ
  | .typeChange t =>
    if t ∈ analysisOptions then { σ with ui := setAnalysisType t σ.ui } else σ
  | .filePick f url =>
    if σ.ui.mode = "camera" then σ else { σ with ui := handleFile f url σ.ui }
  | .clearClick =>
    if clearBtnShown σ.ui then { σ with ui := clear σ.ui } else σ
  | .analyzeClick shot =>
    if analyzeBtnDisabled σ.ui then σ
    else
      match attempt σ.ui shot with
      | .error err =>
        { ui := finish (settled (analyzeBegin σ.ui) (.error err)), pending := none }
      | .ok req => { ui := analyzeBegin σ.ui, pending := some req }
  | .completion outcome =>
    match σ.pending with
    | none => σ
    | some _ => { ui := finish (settled σ.ui outcome), pending := none }

/-- The freshly mounted component. -/
def initialSys : Sys := { ui := initialState, pending := none }

/-- The state after a sequence of actions. -/
def runActions (σ : Sys) (acts : List Action) : Sys := acts.foldl step σ

/-- States the mounted component can be in. -/
inductive Reachable : Sys → Prop where
  | init : Reachable initialSys
  | next {σ : Sys} (a : Action) : Reachable σ → Reachable (step σ a)

/-! ## Concrete inputs used in the checks below -/

/-- A frame as `getScreenshot` returns it. -/
def sampleShot : Option String := some "data:image/jpeg;base64,AAAA"

/-- A service that rejects every request without answering. -/
def offlineServer : Request → Except Failure Response :=
  fun _ => .error { response := none, message := some "Network Error" }

/-- The component right after a click on the analyze button in camera mode
with a frame available: the request is in flight. -/
def inFlightSys : Sys := step initialSys (.analyzeClick sampleShot)

/-- Image mode, nothing picked. -/
def imageModeEmpty : AppState := modeBtnClick "image" initialState

/-- Image mode with a picked file. -/
def imageModePicked : AppState :=
  handleFile (some { name := "face.png" }) "blob:preview" imageModeEmpty

/-- A rejection whose body carries an empty `error` field. -/
def emptyServerError : Failure :=
  { response := some { data := some { error := some "" } },
    message := some "Request failed with status code 500" }

/-- A rejection whose body is `{ error: "model unavailable" }`. -/
def modelUnavailable : Failure :=
  { response := some { data := some { error := some "model unavailable" } },
    message := some "Request failed with status code 503" }

/-- An emotion entry with its probability object `sad: 3, happy: 92,
neutral: 5`. -/
def happyEntry : EmotionEntry :=
  { emotion := "happy", confidence := 92,
    all_probabilities := some [("sad", 3), ("happy", 92), ("neutral", 5)],
    quote := none }

/-- A flat response of the emotion endpoint: `faces_detected` at top level,
no nested `emotion`, no `fingers`, no `objects`. -/
def flatEmotionResponse : Response :=
  { emotion := none, faces_detected := some 1, emotions := [happyEntry],
    fingers := none, objects := none, annotated_image := none }

/-- A response whose `fingers` and `objects` sub-objects report nothing found. -/
def zeroCountsResponse : Response :=
  { emotion := none, faces_detected := some 0, emotions := [],
    fingers := some { hands_detected := 0, total_fingers := 0, hands := [],
                      message := none },
    objects := some { count := 0, method := "contour", message := none },
    annotated_image := none }

/-- The error mapping as the specification words it: the first of the server
field, the failure message and the fallback that is present. -/
def errorMessageByPresence (err : Failure) : String :=
  match (err.response.bind (·.data)).bind (·.error) with
  | some e => e
  | none =>
    match err.message with
    | some m => m
    | none => "Analysis failed"

/-- The component after an emotion-only analysis of a camera frame has been
answered with the flat response and the analysis type has then been set back
to `all`. -/
def emotionThenAllSys : Sys :=
  runActions initialSys
    [.typeChange "emotion", .analyzeClick sampleShot,
     .completion (.ok flatEmotionResponse), .typeChange "all"]

/-- The component after a full analysis answered with `zeroCountsResponse`. -/
def zeroCountsSys : Sys :=
  runActions initialSys
    [.analyzeClick sampleShot, .completion (.ok zeroCountsResponse)]

/-- What holds in every state of the mounted component: a request is in
flight exactly while `isProcessing` is true, nothing is stored while it is,
and result and error are never stored together. -/
def Inv (σ : Sys) : Prop :=
  (σ.pending.isSome = σ.ui.isProcessing) ∧
    (σ.ui.isProcessing = true → σ.ui.results = none ∧ σ.ui.error = none) ∧
    (σ.ui.results = none ∨ σ.ui.error = none)

/-! ## Mode switch -/

/-- C1 (as stated, refuted): with a request in flight, reached from the
initial state by one click on the analyze button, a mode switch to `image`
leaves `isProcessing` true. -/
theorem modeBtnClick_in_flight_counterexample :
    Reachable inFlightSys ∧ "image" ∈ modeIds ∧
      (modeBtnClick "image" inFlightSys.ui).isProcessing = true := by
  refine ⟨Reachable.next _ Reachable.init, by decide, by decide⟩

/-- C1 (amended): a mode switch sets the mode to the one chosen, empties
result, error, picked file and preview, and leaves `isProcessing` and the
analysis type as they were. -/
theorem modeBtnClick_effect (m : String) (s : AppState) :
    (modeBtnClick m s).mode = m ∧
      (modeBtnClick m s).results = none ∧
      (modeBtnClick m s).error = none ∧
      (modeBtnClick m s).selectedFile = none ∧
      (modeBtnClick m s).previewUrl = none ∧
      (modeBtnClick m s).isProcessing = s.isProcessing ∧
      (modeBtnClick m s).analysisType = s.analysisType := by
  simp [modeBtnClick, clear, setMode, setResults, setError, setSelectedFile,
    setPreviewUrl]

/-! ## Guard of the analyze button -/

/-- C2: while `isProcessing` is true, or outside camera mode with no file
picked, a click on the analyze button calls no setter and sends no request,
so the state it leaves is the state it found and no request is in flight
because of it; conversely a click that does anything found `isProcessing`
false and either camera mode or a picked file. -/
theorem analyzeBtnClick_guard (s : AppState) (shot : Option String)
    (server : Request → Except Failure Response) (pending : Option Request) :
    ((s.isProcessing = true ∨ (s.mode ≠ "camera" ∧ s.selectedFile = none)) →
        (analyzeBtnClick s shot server).sent = [] ∧
        (analyzeBtnClick s shot server).trace = [] ∧
        (analyzeBtnClick s shot server).final s = s ∧
        step { ui := s, pending := pending } (.analyzeClick shot)
          = { ui := s, pending := pending }) ∧
      (((analyzeBtnClick s shot server).sent ≠ [] ∨
          (analyzeBtnClick s shot server).trace ≠ []) →
        s.isProcessing = false ∧ (s.mode = "camera" ∨ s.selectedFile.isSome = true)) := by
  constructor
  · intro h
    have hd : analyzeBtnDisabled s = true := by
      rcases h with h | ⟨hm, hf⟩
      · simp [analyzeBtnDisabled, h]
      · simp [analyzeBtnDisabled, hm, hf]
    simp [analyzeBtnClick, step, hd, Run.final]
  · intro h
    by_cases hd : analyzeBtnDisabled s = true
    · simp [analyzeBtnClick, hd] at h
    · simp only [analyzeBtnDisabled, Bool.or_eq_true, Bool.and_eq_true, not_or,
        not_and] at hd
      obtain ⟨hp, hm⟩ := hd
      refine ⟨by simpa using hp, ?_⟩
      by_cases hc : s.mode = "camera"
      · exact Or.inl hc
      · right
        have hf := hm (by simpa using hc)
        cases hsel : s.selectedFile with
        | none => simp [hsel] at hf
        | some f => rfl

/-- C2, at a concrete state: image mode with nothing picked. -/
theorem analyzeBtnClick_guard_witness :
    (analyzeBtnClick imageModeEmpty sampleShot offlineServer).sent = [] ∧
      (analyzeBtnClick imageModeEmpty sampleShot offlineServer).trace = [] ∧
      (analyzeBtnClick imageModeEmpty sampleShot offlineServer).final imageModeEmpty
        = imageModeEmpty ∧
      step { ui := imageModeEmpty, pending := none } (.analyzeClick sampleShot)
        = { ui := imageModeEmpty, pending := none } :=
  (analyzeBtnClick_guard imageModeEmpty sampleShot offlineServer none).1
    (Or.inr ⟨by decide, rfl⟩)

/-! ## Endpoint selection -/

/-- C3: the endpoint is fixed by the analysis type: `all`, `emotion`,
`fingers` and `objects` give `/analyze-all`, `/detect-emotion`,
`/count-fingers` and `/count-objects` under `API_URL`, whatever the other six
state cells hold; the four endpoints are pairwise distinct. -/
theorem selectEndpoint_table :
    (∀ s : AppState, selectEndpoint { s with analysisType := "all" }
        = API_URL ++ "/analyze-all") ∧
      (∀ s : AppState, selectEndpoint { s with analysisType := "emotion" }
        = API_URL ++ "/detect-emotion") ∧
      (∀ s : AppState, selectEndpoint { s with analysisType := "fingers" }
        = API_URL ++ "/count-fingers") ∧
      (∀ s : AppState, selectEndpoint { s with analysisType := "objects" }
        = API_URL ++ "/count-objects") ∧
      (∀ s₁ s₂ : AppState,
        selectEndpoint { s₁ with analysisType := s₂.analysisType } = selectEndpoint s₂) ∧
      [API_URL ++ "/analyze-all", API_URL ++ "/detect-emotion",
        API_URL ++ "/count-fingers", API_URL ++ "/count-objects"].Nodup := by
  refine ⟨?_, ?_, ?_, ?_, ?_, by decide⟩
  · intro s; simp [selectEndpoint]
  · intro s; simp [selectEndpoint]
  · intro s; simp [selectEndpoint]
  · intro s; simp [selectEndpoint]
  · intro s₁ s₂; simp [selectEndpoint]

/-! ## Request construction -/

/-- C4: what one call of `analyze` sends.  In camera mode without a usable
frame it sends nothing and stores `Could not capture from camera`; with a
frame `img` it sends one POST to the bare endpoint with the JSON body
`image: img, annotate: true`.  Outside camera mode without a file it sends
nothing and stores `No file selected`; with a file `f` it sends one POST to
the endpoint followed by `?annotate=true` with a multipart body whose only
field `file` is `f`.  No call sends more than one request. -/
theorem analyze_request_construction (s : AppState)
    (server : Request → Except Failure Response) :
    (∀ shot, s.mode = "camera" → jsTruthy shot = false →
        (analyze s shot server).sent = [] ∧
        ((analyze s shot server).final s).error = some "Could not capture from camera") ∧
      (∀ img, s.mode = "camera" → jsTruthy (some img) = true →
        (analyze s (some img) server).sent =
          [{ method := "POST", url := selectEndpoint s, body := .json img true,
             headers := [] }]) ∧
      (∀ shot, s.mode ≠ "camera" → s.selectedFile = none →
        (analyze s shot server).sent = [] ∧
        ((analyze s shot server).final s).error = some "No file selected") ∧
      (∀ shot f, s.mode ≠ "camera" → s.selectedFile = some f →
        (analyze s shot server).sent =
          [{ method := "POST", url := selectEndpoint s ++ "?annotate=true",
             body := .multipart [("file", f)],
             headers := [("Content-Type", "multipart/form-data")] }]) ∧
      (∀ shot, (analyze s shot server).sent.length ≤ 1) := by
  refine ⟨?_, ?_, ?_, ?_, ?_⟩
  · intro shot hm hs
    have ha : attempt s shot
        = .error (Failure.ofMessage "Could not capture from camera") := by
      cases shot with
      | none => simp [attempt, hm]
      | some img =>
        have : img = "" := by simpa [jsTruthy] using hs
        simp [attempt, hm, this]
    simp [analyze, ha, Run.final, beginTrace, settle, settled, finish, setError,
      setIsProcessing, errorMessage, Failure.ofMessage, jsOr, jsTruthy]
  · intro img hm hs
    have : img ≠ "" := by simpa [jsTruthy] using hs
    simp [analyze, attempt, hm, this]
  · intro shot hm hf
    simp [analyze, attempt, hm, hf, Run.final, beginTrace, settle, settled, finish,
      setError, setIsProcessing, errorMessage, Failure.ofMessage, jsOr, jsTruthy]
  · intro shot f hm hf
    simp [analyze, attempt, hm, hf]
  · intro shot
    unfold analyze
    cases attempt s shot <;> simp

/-- C4, at concrete states: camera mode with and without a frame, image mode
with and without a file. -/
theorem analyze_request_construction_witness :
    ((analyze initialState none offlineServer).sent = [] ∧
        ((analyze initialState none offlineServer).final initialState).error
          = some "Could not capture from camera") ∧
      (analyze initialState sampleShot offlineServer).sent =
        [{ method := "POST", url := "http://localhost:5000/api/analyze-all",
           body := .json "data:image/jpeg;base64,AAAA" true, headers := [] }] ∧
      ((analyze imageModeEmpty sampleShot offlineServer).sent = [] ∧
        ((analyze imageModeEmpty sampleShot offlineServer).final imageModeEmpty).error
          = some "No file selected") ∧
      (analyze imageModePicked none offlineServer).sent =
        [{ method := "POST",
           url := "http://localhost:5000/api/analyze-all?annotate=true",
           body := .multipart [("file", { name := "face.png" })],
           headers := [("Content-Type", "multipart/form-data")] }] :=
  ⟨(analyze_request_construction initialState offlineServer).1 none rfl rfl,
   (analyze_request_construction initialState offlineServer).2.1 _ rfl (by decide),
   (analyze_request_construction imageModeEmpty offlineServer).2.2.1 sampleShot
     (by decide) rfl,
   (analyze_request_construction imageModePicked offlineServer).2.2.2.1 none _
     (by decide) rfl⟩

/-! ## Error mapping -/

/-- C5 (as stated, refuted): a rejection whose body carries the `error` field
with the empty string stores the failure message, not the field: presence of
the field does not decide, and the mapping by presence differs from the code
there. -/
theorem errorMessage_empty_field_counterexample :
    (emptyServerError.response.bind (·.data)).bind (·.error) = some "" ∧
      errorMessage emptyServerError = some "Request failed with status code 500" ∧
      errorMessage emptyServerError ≠ some (errorMessageByPresence emptyServerError) ∧
      ((analyze imageModePicked none (fun _ => .error emptyServerError)).final
          imageModePicked).error = some "Request failed with status code 500" := by
  refine ⟨rfl, by decide, by decide, by decide⟩

/-- C5 (amended): the stored message is the server `error` field when it is
present and not the empty string; otherwise the failure message when it is
present and not empty; otherwise `Analysis failed`.  A request rejected with
the body `error: "model unavailable"` ends with no result, `isProcessing`
false and exactly that message, whatever the failure message is. -/
theorem errorMessage_by_truthiness (err : Failure) (cur : AppState) :
    (settled cur (.error err)).error = errorMessage err ∧
      (∀ e, (err.response.bind (·.data)).bind (·.error) = some e → e ≠ "" →
        errorMessage err = some e) ∧
      (∀ m, jsTruthy ((err.response.bind (·.data)).bind (·.error)) = false →
        err.message = some m → m ≠ "" → errorMessage err = some m) ∧
      (jsTruthy ((err.response.bind (·.data)).bind (·.error)) = false →
        jsTruthy err.message = false → errorMessage err = some "Analysis failed") ∧
      (∀ s shot server req,
        attempt s shot = .ok req → server req = .error err →
        (err.response.bind (·.data)).bind (·.error) = some "model unavailable" →
        ((analyze s shot server).final s).results = none ∧
        ((analyze s shot server).final s).error = some "model unavailable" ∧
        ((analyze s shot server).final s).isProcessing = false) := by
  have key : ∀ e, (err.response.bind (·.data)).bind (·.error) = some e → e ≠ "" →
      errorMessage err = some e := by
    intro e he hne
    simp [errorMessage, he, jsOr, jsTruthy, hne]
  refine ⟨rfl, key, ?_, ?_, ?_⟩
  · intro m hs hm hne
    simp only [errorMessage, jsOr, hs, hm]
    simp [jsTruthy, hne]
  · intro hs hm
    simp [errorMessage, jsOr, hs, hm]
  · intro s shot server req ha hsrv he
    have hmsg := key _ he (by decide)
    simp [analyze, ha, hsrv, Run.final, beginTrace, settle, settled, finish, hmsg,
      analyzeBegin, setError, setIsProcessing, setResults]

/-- C5 amended, at a concrete failure: the body `error: "model unavailable"`
answering a request from image mode with a picked file. -/
theorem errorMessage_by_truthiness_witness :
    errorMessage modelUnavailable = some "model unavailable" ∧
      (((analyze imageModePicked none (fun _ => .error modelUnavailable)).final
          imageModePicked).results = none ∧
        ((analyze imageModePicked none (fun _ => .error modelUnavailable)).final
          imageModePicked).error = some "model unavailable" ∧
        ((analyze imageModePicked none (fun _ => .error modelUnavailable)).final
          imageModePicked).isProcessing = false) :=
  ⟨(errorMessage_by_truthiness modelUnavailable initialState).2.1 _ rfl (by decide),
   (errorMessage_by_truthiness modelUnavailable initialState).2.2.2.2
     imageModePicked none (fun _ => .error modelUnavailable)
     { method := "POST", url := "http://localhost:5000/api/analyze-all?annotate=true",
       body := .multipart [("file", { name := "face.png" })],
       headers := [("Content-Type", "multipart/form-data")] }
     rfl rfl rfl⟩

/-! ## Emotion normalisation -/

/-- C6: `getEmotion` returns the nested `emotion` object when the stored
response has one; otherwise the response itself when it has a
`faces_detected` field; otherwise nothing.  With nothing stored it returns
nothing. -/
theorem getEmotion_cases (r : Response) :
    (∀ e, r.emotion = some e → getEmotion (some r) = some (.nested e)) ∧
      (∀ n, r.emotion = none → r.faces_detected = some n →
        getEmotion (some r) = some (.envelope r)) ∧
      (r.emotion = none → r.faces_detected = none → getEmotion (some r) = none) ∧
      getEmotion none = none := by
  refine ⟨?_, ?_, ?_, rfl⟩
  · intro e he
    simp [getEmotion, he]
  · intro n he hf
    simp [getEmotion, he, hf]
  · intro he hf
    simp [getEmotion, he, hf]

/-- C6, at concrete responses: a flat response yields the envelope; the same
response with a nested `emotion` object added yields the nested object. -/
theorem getEmotion_cases_witness :
    getEmotion (some flatEmotionResponse) = some (.envelope flatEmotionResponse) ∧
      getEmotion (some { flatEmotionResponse with
          emotion := some { faces_detected := some 2, emotions := [] } })
        = some (.nested { faces_detected := some 2, emotions := [] }) :=
  ⟨(getEmotion_cases flatEmotionResponse).2.1 1 rfl rfl,
   (getEmotion_cases { flatEmotionResponse with
      emotion := some { faces_detected := some 2, emotions := [] } }).1 _ rfl⟩

/-! ## Ordering of the probability rows -/

theorem sortInsert_perm {α : Type} (cmp : α → α → ℚ) (x : α) (l : List α) :
    (sortInsert cmp x l).Perm (x :: l) := by
  induction l with
  | nil => exact List.Perm.refl _
  | cons y ys ih =>
    unfold sortInsert
    split_ifs with h
    · exact List.Perm.refl _
    · exact (List.Perm.cons y ih).trans (List.Perm.swap x y ys)

theorem arraySort_perm {α : Type} (cmp : α → α → ℚ) (l : List α) :
    (arraySort cmp l).Perm l := by
  induction l with
  | nil => exact List.Perm.refl _
  | cons x xs ih =>
    exact (sortInsert_perm cmp x (arraySort cmp xs)).trans (List.Perm.cons x ih)

theorem sortInsert_descending (x : String × ℚ) (l : List (String × ℚ))
    (hl : l.Pairwise fun a b => b.2 ≤ a.2) :
    (sortInsert probCompare x l).Pairwise fun a b => b.2 ≤ a.2 := by
  induction l with
  | nil => simp [sortInsert]
  | cons y ys ih =>
    have hy := List.pairwise_cons.mp hl
    unfold sortInsert
    split_ifs with h
    · have hyx : y.2 ≤ x.2 := by
        have : y.2 - x.2 ≤ 0 := h
        linarith
      refine List.pairwise_cons.mpr ⟨?_, hl⟩
      intro b hb
      rcases List.mem_cons.mp hb with rfl | hb
      · exact hyx
      · exact le_trans (hy.1 b hb) hyx
    · have hxy : x.2 ≤ y.2 := by
        have : ¬ (y.2 - x.2 ≤ 0) := h
        linarith [not_le.mp this]
      refine List.pairwise_cons.mpr ⟨?_, ih hy.2⟩
      intro b hb
      have hb2 : b ∈ x :: ys := (sortInsert_perm probCompare x ys).mem_iff.mp hb
      rcases List.mem_cons.mp hb2 with rfl | hb2
      · exact hxy
      · exact hy.1 b hb2

theorem arraySort_descending (l : List (String × ℚ)) :
    (arraySort probCompare l).Pairwise fun a b => b.2 ≤ a.2 := by
  induction l with
  | nil => exact List.Pairwise.nil
  | cons x xs ih => exact sortInsert_descending x _ ih

/-- C7: for an emotion entry that carries `all_probabilities`, the rows of
its `prob-bars` block are, as (label, percentage) pairs, a permutation of the
entries of that object, and they are in non-increasing order: each row is at
least the row after it, and at least every later row. -/
theorem probBars_sorted_perm (e : EmotionEntry) (m : List (String × ℚ))
    (h : e.all_probabilities = some m) :
    ∃ rows, probBars e = some rows ∧
      (rows.map fun r => (r.label, r.prob)).Perm m ∧
      rows.Chain' (fun a b => b.prob ≤ a.prob) ∧
      rows.Pairwise (fun a b => b.prob ≤ a.prob) := by
  have hp : ((arraySort probCompare m).map fun p =>
        ({ label := p.1, prob := p.2, top := decide (p.1 = e.emotion) } : ProbRow)).Pairwise
      (fun a b => b.prob ≤ a.prob) :=
    List.pairwise_map.mpr (arraySort_descending m)
  refine ⟨_, by simp [probBars, h], ?_, List.Pairwise.chain' hp, hp⟩
  simpa [List.map_map, Function.comp_def] using arraySort_perm probCompare m

/-- C7, at a concrete entry: `sad: 3, happy: 92, neutral: 5` is shown as
`happy`, `neutral`, `sad`. -/
theorem probBars_sorted_perm_witness :
    (∃ rows, probBars happyEntry = some rows ∧
        (rows.map fun r => (r.label, r.prob)).Perm
          [("sad", 3), ("happy", 92), ("neutral", 5)] ∧
        rows.Chain' (fun a b => b.prob ≤ a.prob) ∧
        rows.Pairwise (fun a b => b.prob ≤ a.prob)) ∧
      probBars happyEntry
        = some [{ label := "happy", prob := 92, top := true },
                { label := "neutral", prob := 5, top := false },
                { label := "sad", prob := 3, top := false }] :=
  ⟨probBars_sorted_perm happyEntry _ rfl, by
    simp [probBars, happyEntry, arraySort, sortInsert, probCompare]
    decide⟩

/-! ## Visibility of the finger and object cards -/

theorem reachable_runActions (σ : Sys) (h : Reachable σ) (acts : List Action) :
    Reachable (runActions σ acts) := by
  induction acts generalizing σ with
  | nil => exact h
  | cons a rest ih => exact ih (step σ a) (Reachable.next a h)

/-- C8 (as stated, refuted): after an emotion-only analysis answered without
`fingers` and `objects` sub-objects, setting the analysis type to `all` shows
the finger card, with the very message it shows for a `fingers` sub-object
with `hands_detected = 0`; it also shows the object card with
`No objects detected`, while an `objects` sub-object with `count = 0` is
shown as the count 0. -/
theorem sections_absent_counterexample :
    Reachable emotionThenAllSys ∧ Reachable zeroCountsSys ∧
      (emotionThenAllSys.ui.results.bind (·.fingers)) = none ∧
      (emotionThenAllSys.ui.results.bind (·.objects)) = none ∧
      fingerSection emotionThenAllSys.ui
        = some (.noDetection "No hands detected in frame") ∧
      fingerSection zeroCountsSys.ui
        = some (.noDetection "No hands detected in frame") ∧
      objectSection emotionThenAllSys.ui = some (.noDetection "No objects detected") ∧
      objectSection zeroCountsSys.ui = some (.counted 0 "contour" none) := by
  refine ⟨?_, ?_, rfl, rfl, rfl, rfl, rfl, rfl⟩
  · exact reachable_runActions _ Reachable.init _
  · exact reachable_runActions _ Reachable.init _

/-- C8 (amended): the finger card is on the page exactly when a response is
stored and the analysis type is `all` or `fingers`, whether or not the
response has a `fingers` sub-object; with type `emotion` it is not shown.
When shown it reads `No hands detected in frame` both without a `fingers`
sub-object and with one whose `hands_detected` is 0.  The object card is on
the page exactly when a response is stored and the type is `all` or
`objects`; it reads `No objects detected` without an `objects` sub-object and
shows the count, 0 included, with one. -/
theorem sections_by_analysis_type (s : AppState) :
    ((fingerSection s).isSome = true ↔
        s.results.isSome = true ∧ (s.analysisType = "all" ∨ s.analysisType = "fingers")) ∧
      (s.analysisType = "emotion" → fingerSection s = none) ∧
      (∀ r, s.results = some r → showFingers s = true → r.fingers = none →
        fingerSection s = some (.noDetection "No hands detected in frame")) ∧
      (∀ r fd, s.results = some r → showFingers s = true → r.fingers = some fd →
        fd.hands_detected = 0 →
        fingerSection s = some (.noDetection "No hands detected in frame")) ∧
      ((objectSection s).isSome = true ↔
        s.results.isSome = true ∧ (s.analysisType = "all" ∨ s.analysisType = "objects")) ∧
      (∀ r, s.results = some r → showObjects s = true → r.objects = none →
        objectSection s = some (.noDetection "No objects detected")) ∧
      (∀ r od, s.results = some r → showObjects s = true → r.objects = some od →
        objectSection s = some (.counted od.count od.method (jsAndShow od.message))) := by
  refine ⟨?_, ?_, ?_, ?_, ?_, ?_, ?_⟩
  · cases hr : s.results with
    | none => simp [fingerSection, resultsView, hr]
    | some r =>
      by_cases h : showFingers s = true
      · have h2 := h
        simp only [showFingers, Bool.or_eq_true, decide_eq_true_eq] at h2
        simp [fingerSection, resultsView, hr, h, h2]
      · have h2 := h
        simp only [showFingers, Bool.or_eq_true, decide_eq_true_eq] at h2
        simp [fingerSection, resultsView, hr, h, h2]
  · intro ht
    cases hr : s.results with
    | none => simp [fingerSection, resultsView, hr]
    | some r => simp [fingerSection, resultsView, hr, showFingers, ht]
  · intro r hr hs hf
    simp [fingerSection, resultsView, hr, hs, fingerCard, getFingers, hf]
  · intro r fd hr hs hf h0
    simp [fingerSection, resultsView, hr, hs, fingerCard, getFingers, hf, h0, jsGtZero]
  · cases hr : s.results with
    | none => simp [objectSection, resultsView, hr]
    | some r =>
      by_cases h : showObjects s = true
      · have h2 := h
        simp only [showObjects, Bool.or_eq_true, decide_eq_true_eq] at h2
        simp [objectSection, resultsView, hr, h, h2]
      · have h2 := h
        simp only [showObjects, Bool.or_eq_true, decide_eq_true_eq] at h2
        simp [objectSection, resultsView, hr, h, h2]
  · intro r hr hs hf
    simp [objectSection, resultsView, hr, hs, objectCard, getObjects, hf]
  · intro r od hr hs hf
    simp [objectSection, resultsView, hr, hs, objectCard, getObjects, hf]

/-- C8 amended, at concrete states: type `emotion` hides the finger card; a
`fingers` sub-object with no hands, and an `objects` sub-object with count 0,
under type `all`. -/
theorem sections_by_analysis_type_witness :
    fingerSection { zeroCountsSys.ui with analysisType := "emotion" } = none ∧
      fingerSection zeroCountsSys.ui
        = some (.noDetection "No hands detected in frame") ∧
      objectSection zeroCountsSys.ui
        = some (.counted 0 "contour" (jsAndShow none)) :=
  ⟨(sections_by_analysis_type { zeroCountsSys.ui with analysisType := "emotion" }).2.1 rfl,
   (sections_by_analysis_type zeroCountsSys.ui).2.2.2.1 zeroCountsResponse _ rfl rfl rfl rfl,
   (sections_by_analysis_type zeroCountsSys.ui).2.2.2.2.2.2 zeroCountsResponse _ rfl rfl rfl⟩

/-! ## The processing flag -/

/-- C9: in every call of `analyze`, however it ends, `isProcessing` is true
after the first setter call and in every state up to the last, and false in
the state the call leaves.  With the call suspended at its request, no other
handler touches the flag, and whatever state the outcome finds, the `finally`
clause leaves the flag false. -/
theorem analyze_processing_interval (s : AppState) (shot : Option String)
    (server : Request → Except Failure Response) :
    (analyze s shot server).trace.length = 5 ∧
      ((analyze s shot server).trace.dropLast.all fun t => t.isProcessing) = true ∧
      ((analyze s shot server).final s).isProcessing = false ∧
      (analyzeBegin s).isProcessing = true ∧
      (∀ cur m, (modeBtnClick m cur).isProcessing = cur.isProcessing) ∧
      (∀ cur t, (setAnalysisType t cur).isProcessing = cur.isProcessing) ∧
      (∀ cur f url, (handleFile f url cur).isProcessing = cur.isProcessing) ∧
      (∀ cur, (clear cur).isProcessing = cur.isProcessing) ∧
      (∀ cur outcome, (settled cur outcome).isProcessing = cur.isProcessing ∧
        (finish (settled cur outcome)).isProcessing = false) := by
  have hsettled : ∀ (cur : AppState) (outcome : Except Failure Response),
      (settled cur outcome).isProcessing = cur.isProcessing := by
    intro cur outcome
    cases outcome <;> rfl
  have hrun : ∀ outcome : Except Failure Response,
      (beginTrace s ++ settle (analyzeBegin s) outcome).length = 5 ∧
      ((beginTrace s ++ settle (analyzeBegin s) outcome).dropLast.all
        fun t => t.isProcessing) = true ∧
      ((beginTrace s ++ settle (analyzeBegin s) outcome).getLastD s).isProcessing
        = false := by
    intro outcome
    have h4 : (settled (analyzeBegin s) outcome).isProcessing = true := by
      rw [hsettled]; rfl
    simp [beginTrace, settle, finish, setIsProcessing, setError, setResults, h4,
      List.dropLast]
  refine ⟨?_, ?_, ?_, rfl, fun _ _ => rfl, fun _ _ => rfl, ?_, fun _ => rfl, ?_⟩
  · unfold analyze
    cases attempt s shot <;> exact (hrun _).1
  · unfold analyze
    cases attempt s shot <;> exact (hrun _).2.1
  · unfold analyze Run.final
    cases attempt s shot <;> exact (hrun _).2.2
  · intro cur f url
    cases f <;> rfl
  · intro cur outcome
    exact ⟨hsettled cur outcome, rfl⟩

/-! ## Result and error never coexist -/

theorem inv_init : Inv initialSys := by
  simp [Inv, initialSys, initialState]

theorem inv_step (σ : Sys) (a : Action) (h : Inv σ) : Inv (step σ a) := by
  obtain ⟨hp, hq, hx⟩ := h
  cases a with
  | modeSwitch m =>
    dsimp only [step]
    split_ifs
    · exact ⟨hp, fun _ => ⟨rfl, rfl⟩, Or.inl rfl⟩
    · exact ⟨hp, hq, hx⟩
  | typeChange t =>
    dsimp only [step]
    split_ifs
    · exact ⟨hp, hq, hx⟩
    · exact ⟨hp, hq, hx⟩
  | filePick f url =>
    dsimp only [step]
    split_ifs
    · exact ⟨hp, hq, hx⟩
    · cases f with
      | none => exact ⟨hp, hq, hx⟩
      | some file => exact ⟨hp, fun _ => ⟨rfl, rfl⟩, Or.inl rfl⟩
  | clearClick =>
    dsimp only [step]
    split_ifs
    · exact ⟨hp, fun _ => ⟨rfl, rfl⟩, Or.inl rfl⟩
    · exact ⟨hp, hq, hx⟩
  | analyzeClick shot =>
    dsimp only [step]
    split_ifs with hd
    · exact ⟨hp, hq, hx⟩
    · cases attempt σ.ui shot with
      | error err =>
        refine ⟨rfl, ?_, Or.inl rfl⟩
        intro hproc
        simp [finish, setIsProcessing] at hproc
      | ok req => exact ⟨rfl, fun _ => ⟨rfl, rfl⟩, Or.inl rfl⟩
  | completion outcome =>
    dsimp only [step]
    cases hpend : σ.pending with
    | none => exact ⟨hp, hq, hx⟩
    | some req =>
      have hproc : σ.ui.isProcessing = true := by
        rw [← hp, hpend]; rfl
      obtain ⟨hr, he⟩ := hq hproc
      refine ⟨rfl, ?_, ?_⟩
      · intro hfin
        simp [finish, setIsProcessing] at hfin
      · cases outcome with
        | error err => exact Or.inl hr
        | ok data => exact Or.inr he

theorem inv_reachable (σ : Sys) (h : Reachable σ) : Inv σ := by
  induction h with
  | init => exact inv_init
  | next a _ ih => exact inv_step _ a ih

theorem errorMessage_isSome (err : Failure) : (errorMessage err).isSome = true := by
  unfold errorMessage
  generalize jsOr ((err.response.bind (·.data)).bind (·.error)) err.message = x
  unfold jsOr
  split_ifs with h
  · cases x with
    | none => simp [jsTruthy] at h
    | some e => rfl
  · rfl

/-- C10: in every state reachable from the initial one by mode switches,
analysis-type changes, file picks, clears, clicks on the analyze button and
completions of the request in flight, result and error are not both stored.
A completion stores the response and no error on success, and an error and no
result on failure; so does every uninterrupted call of `analyze`. -/
theorem reachable_result_error_exclusive (σ : Sys) (h : Reachable σ) :
    (σ.ui.results = none ∨ σ.ui.error = none) ∧
      (∀ req data, σ.pending = some req →
        (step σ (.completion (.ok data))).ui.results = some data ∧
        (step σ (.completion (.ok data))).ui.error = none) ∧
      (∀ req err, σ.pending = some req →
        (step σ (.completion (.error err))).ui.results = none ∧
        (step σ (.completion (.error err))).ui.error = errorMessage err ∧
        (errorMessage err).isSome = true) ∧
      (∀ s shot server,
        ((analyze s shot server).final s).results = none ∨
        ((analyze s shot server).final s).error = none) := by
  obtain ⟨hp, hq, hx⟩ := inv_reachable σ h
  refine ⟨hx, ?_, ?_, ?_⟩
  · intro req data hpend
    have hproc : σ.ui.isProcessing = true := by
      rw [← hp, hpend]; rfl
    obtain ⟨_, he⟩ := hq hproc
    simp [step, hpend, finish, settled, setResults, setIsProcessing, he]
  · intro req err hpend
    have hproc : σ.ui.isProcessing = true := by
      rw [← hp, hpend]; rfl
    obtain ⟨hr, _⟩ := hq hproc
    simp [step, hpend, finish, settled, setError, setIsProcessing, hr,
      errorMessage_isSome]
  · intro s shot server
    have hfin : ∀ outcome : Except Failure Response,
        ((beginTrace s ++ settle (analyzeBegin s) outcome).getLastD s).results = none ∨
        ((beginTrace s ++ settle (analyzeBegin s) outcome).getLastD s).error = none := by
      intro outcome
      cases outcome with
      | error err =>
        left
        simp [beginTrace, settle, settled, finish, analyzeBegin, setIsProcessing,
          setError, setResults]
      | ok data =>
        right
        simp [beginTrace, settle, settled, finish, analyzeBegin, setIsProcessing,
          setError, setResults]
    unfold analyze Run.final
    cases attempt s shot <;> exact hfin _

/-- C10, at the state with a request in flight: both ways it can complete. -/
theorem reachable_result_error_exclusive_witness :
    (inFlightSys.ui.results = none ∨ inFlightSys.ui.error = none) ∧
      ((step inFlightSys (.completion (.ok zeroCountsResponse))).ui.results
          = some zeroCountsResponse ∧
        (step inFlightSys (.completion (.ok zeroCountsResponse))).ui.error = none) ∧
      ((step inFlightSys (.completion (.error modelUnavailable))).ui.results = none ∧
        (step inFlightSys (.completion (.error modelUnavailable))).ui.error
          = errorMessage modelUnavailable ∧
        (errorMessage modelUnavailable).isSome = true) :=
  ⟨(reachable_result_error_exclusive inFlightSys
      (Reachable.next _ Reachable.init)).1,
   (reachable_result_error_exclusive inFlightSys
      (Reachable.next _ Reachable.init)).2.1 _ zeroCountsResponse rfl,
   (reachable_result_error_exclusive inFlightSys
      (Reachable.next _ Reachable.init)).2.2.1 _ modelUnavailable rfl⟩

end VisionApp
